import Mathlib

/-!
Shallow embedding of the register-decoding core of the stiebel_eltron_isg
integration, file custom_components/stiebel_eltron_isg/__init__.py.

Modelling conventions:
- Modbus register words are natural numbers; the transport delivers 16-bit
  values, so theorems restrict words to be below 65536 where words are decoded.
- Python dictionaries are association lists with Python insertion-order
  semantics: assignment to an existing key replaces the value in place,
  assignment to a fresh key appends at the end.
- Python exceptions are an explicit error type carried in Except; an
  uncaught exception inside one poll makes the whole poll fail.
- The register reader (pymodbus read_input_registers) is an environment
  mapping (slave, address, count) to either a register list (successful
  read) or none (a response whose isError() is true).
-/

/-- Python exception kinds that the embedded code can raise. -/
inductive Err where
  /-- Exception raised by the struct module: the payload decoder ran out of
  bytes, or a register does not fit 16 bits when the payload is built. -/
  | structError
  /-- ValueError raised with the message Unknown register type! in
  parse_modbus_values_by_map. -/
  | valueError
  /-- AttributeError: attribute lookup failed. Raised by the id == 103
  branch of read_modbus_data, which calls the method name
  read_modbus_system_values_lw that the class does not define, and by
  calling append on a non-list value returned by dict.setdefault. -/
  | attributeError
  /-- UnboundLocalError: a local variable is referenced before assignment
  (the decoder variable in read_modbus_system_values_LW when the read
  errored). -/
  | unboundLocalError
  /-- TypeError: arithmetic or subscripting on an unsupported value. -/
  | typeError
  /-- KeyError: dictionary subscript with a missing key. -/
  | keyError
deriving DecidableEq

/-- Python values that can appear in a result dictionary of this program:
ints, floats (modelled exactly as rationals), booleans, None, and lists
(used transiently for composite values). -/
inductive Val where
  | int (n : Int)
  | rat (q : ℚ)
  | bool (b : Bool)
  | none_
  | list (elems : List Val)

/-- A Python dict with string keys, as an insertion-ordered association list. -/
abbrev ResultMap := List (String × Val)

/-- Assignment d[k] = v on a Python dict: replace in place if the key is
present, otherwise append at the end. -/
def dictInsert : ResultMap → String → Val → ResultMap
  | [], k, v => [(k, v)]
  | (k1, v1) :: rest, k, v =>
    if k1 = k then (k1, v) :: rest else (k1, v1) :: dictInsert rest k v

/-- Splatting one dict into another, as in a Python dict display: every
entry of the second dict is assigned into the first, in order. -/
def dictMerge (m extra : ResultMap) : ResultMap :=
  extra.foldl (fun acc kv => dictInsert acc kv.1 kv.2) m

/-- Register type code: 16 bit signed, scale 0.1. -/
def ISG_TYPE_2 : Nat := 2

/-- Register type code: 16 bit unsigned, scale 1. -/
def ISG_TYPE_6 : Nat := 6

/-- Register type code: 16 bit signed, scale 0.01. -/
def ISG_TYPE_7 : Nat := 7

/-- Register type code: 8 bit unsigned, scale 1. -/
def ISG_TYPE_8 : Nat := 8

/-- Composite flag bit: multiple values accumulated as a list. -/
def ISG_TYPE_C : Nat := 128

/-- Modelled from the spec: result key from the const module, which is not
under src. The spec names the stable identifiers actual_temperature,
target_temperature and so on, one per decoded quantity. -/
def ACTUAL_TEMPERATURE : String := "actual_temperature"

/-- Modelled from the spec: result key from the const module (not in src). -/
def TARGET_TEMPERATURE : String := "target_temperature"

/-- Modelled from the spec: result key from the const module (not in src). -/
def ACTUAL_TEMPERATURE_FEK : String := "actual_temperature_fek"

/-- Modelled from the spec: result key from the const module (not in src). -/
def TARGET_TEMPERATURE_FEK : String := "target_temperature_fek"

/-- Modelled from the spec: result key from the const module (not in src). -/
def ACTUAL_HUMIDITY : String := "actual_humidity"

/-- Modelled from the spec: result key from the const module (not in src). -/
def DEWPOINT_TEMPERATURE : String := "dewpoint_temperature"

/-- Modelled from the spec: result key from the const module (not in src). -/
def OUTDOOR_TEMPERATURE : String := "outdoor_temperature"

/-- Modelled from the spec: result key from the const module (not in src). -/
def ACTUAL_TEMPERATURE_HK1 : String := "actual_temperature_hk1"

/-- Modelled from the spec: result key from the const module (not in src). -/
def TARGET_TEMPERATURE_HK1 : String := "target_temperature_hk1"

/-- Modelled from the spec: result key from the const module (not in src). -/
def ACTUAL_TEMPERATURE_HK2 : String := "actual_temperature_hk2"

/-- Modelled from the spec: result key from the const module (not in src). -/
def TARGET_TEMPERATURE_HK2 : String := "target_temperature_hk2"

/-- Modelled from the spec: result key from the const module (not in src). -/
def ACTUAL_TEMPERATURE_BUFFER : String := "actual_temperature_buffer"

/-- Modelled from the spec: result key from the const module (not in src). -/
def TARGET_TEMPERATURE_BUFFER : String := "target_temperature_buffer"

/-- Modelled from the spec: result key from the const module (not in src). -/
def ACTUAL_TEMPERATURE_WATER : String := "actual_temperature_water"

/-- Modelled from the spec: result key from the const module (not in src). -/
def TARGET_TEMPERATURE_WATER : String := "target_temperature_water"

/-- Modelled from the spec: result key from the const module (not in src). -/
def SOURCE_TEMPERATURE : String := "source_temperature"

/-- Modelled from the spec: result key from the const module (not in src). -/
def PRODUCED_HEATING_TODAY : String := "produced_heating_today"

/-- Modelled from the spec: result key from the const module (not in src). -/
def PRODUCED_HEATING_TOTAL : String := "produced_heating_total"

/-- Modelled from the spec: result key from the const module (not in src). -/
def PRODUCED_WATER_HEATING_TODAY : String := "produced_water_heating_today"

/-- Modelled from the spec: result key from the const module (not in src). -/
def PRODUCED_WATER_HEATING_TOTAL : String := "produced_water_heating_total"

/-- Modelled from the spec: result key from the const module (not in src). -/
def CONSUMED_HEATING_TODAY : String := "consumed_heating_today"

/-- Modelled from the spec: result key from the const module (not in src). -/
def CONSUMED_HEATING_TOTAL : String := "consumed_heating_total"

/-- Modelled from the spec: result key from the const module (not in src). -/
def CONSUMED_WATER_HEATING_TODAY : String := "consumed_water_heating_today"

/-- Modelled from the spec: result key from the const module (not in src). -/
def CONSUMED_WATER_HEATING_TOTAL : String := "consumed_water_heating_total"

/-- Modelled from the spec: result key from the const module (not in src). -/
def CONSUMED_POWER : String := "consumed_power"

/-- Modelled from the spec: result key from the const module (not in src). -/
def IS_HEATING : String := "is_heating"

/-- Modelled from the spec: result key from the const module (not in src). -/
def IS_HEATING_WATER : String := "is_heating_water"

/-- Modelled from the spec: result key from the const module (not in src). -/
def IS_SUMMER_MODE : String := "is_summer_mode"

/-- Modelled from the spec: result key from the const module (not in src). -/
def IS_COOLING : String := "is_cooling"

/-- Modelled from the spec: the fixed constant average wattage from the
const module, which is not under src. The spec only fixes that it is a
constant, nonzero wattage; the numeric value here is a stand-in and no
theorem depends on it, only on the named constant. -/
def HEATPUMPT_AVERAGE_POWER : ℚ := 1000

/-- Local key string defined inside read_modbus_system_values_LW. -/
def ACTUAL_HUMIDITY_HK1 : String := "actual_humidity_hk1"

/-- Local key string defined inside read_modbus_system_values_LW. -/
def ACTUAL_HUMIDITY_HK2 : String := "actual_humidity_hk2"

/-- Local key string defined inside read_modbus_system_values_LW. -/
def ACTUAL_CIRCUIT_TEMPERATURE_HK1 : String := "actual_temperature_hk1"

/-- Local key string defined inside read_modbus_system_values_LW. -/
def TARGET_CIRCUIT_TEMPERATURE_HK1 : String := "target_temperature_hk1"

/-- Local key string defined inside read_modbus_system_values_LW. -/
def ACTUAL_CIRCUIT_TEMPERATURE_HK2 : String := "actual_temperature_hk2"

/-- Local key string defined inside read_modbus_system_values_LW. -/
def TARGET_CIRCUIT_TEMPERATURE_HK2 : String := "target_temperature_hk2"

/-- Local key string defined inside read_modbus_system_values_LW. -/
def SUPPLY_TEMPERATURE : String := "supply_temperature"

/-- Local key string defined inside read_modbus_system_values_LW. -/
def RETURN_TEMPERATURE : String := "return_temperature"

/-- Local key string defined inside read_modbus_system_values_LW. -/
def PRESSURE_CIRCUIT : String := "pressure_circuit"

/-- Local key string defined inside read_modbus_system_values_LW. -/
def COMPRESSOR_STARTS : String := "compressor_starts"

/-- Two's-complement reading of a 16-bit register word, as struct unpack of
format !h does on a word packed with format !H. -/
def toSigned (w : Nat) : Int :=
  if w < 32768 then (w : Int) else (w : Int) - 65536

/-- A BinaryPayloadDecoder cursor: the list of register words not yet
consumed, with decoding failures carried in Except. -/
abbrev DecM := StateT (List Nat) (Except Err)

/-- decode_16bit_uint: consume one register word, return it unchanged. An
exhausted payload raises struct.error. -/
def decode_16bit_uint : DecM Nat := fun ws =>
  match ws with
  | [] => Except.error Err.structError
  | w :: rest => Except.ok (w, rest)

/-- decode_16bit_int: consume one register word, return its two's-complement
signed reading. An exhausted payload raises struct.error. -/
def decode_16bit_int : DecM Int := fun ws =>
  match ws with
  | [] => Except.error Err.structError
  | w :: rest => Except.ok (toSigned w, rest)

/-- skip_bytes: advance the cursor by nBytes of payload, that is nBytes / 2
register words, without producing output and without error. -/
def skip_bytes (nBytes : Nat) : DecM Unit := fun ws =>
  Except.ok ((), ws.drop (nBytes / 2))

/-- BinaryPayloadDecoder.fromRegisters: packs each register with struct
format !H, which raises struct.error when a register does not fit 16 bits. -/
def fromRegisters (regs : List Nat) : Except Err (List Nat) :=
  if regs.all (fun r => decide (r < 65536)) then Except.ok regs
  else Except.error Err.structError

/-- get_isg_scaled_value: raw times 0.1, with -32768 as the sentinel for an
unavailable reading, returned as Python None. -/
def get_isg_scaled_value (temp : Int) : Val :=
  if temp ≠ -32768 then Val.rat ((temp : ℚ) * 0.1) else Val.none_

/-- Test of the composite bit of a type code, as Python valtype and
ISG_TYPE_C being nonzero. -/
def isComposite (valtype : Nat) : Bool :=
  valtype &&& ISG_TYPE_C != 0

/-- Clearing the composite bit, Python valtype and-not ISG_TYPE_C. When the
bit is set, subtracting ISG_TYPE_C clears exactly that bit. -/
def stripC (valtype : Nat) : Nat :=
  if valtype &&& ISG_TYPE_C != 0 then valtype - ISG_TYPE_C else valtype

/-- The value the parser decodes for one schema entry of base type
stripC valtype from one register word: signed scaled for ISG_TYPE_2,
unsigned for ISG_TYPE_6. -/
def decodedWord (valtype w : Nat) : Val :=
  if stripC valtype = ISG_TYPE_2 then get_isg_scaled_value (toSigned w)
  else Val.int (w : Int)

/-- Storing one decoded value under its schema name: an absent name
discards the value; a composite entry appends to the list under the name
via dict.setdefault(name, []).append(value), raising AttributeError when
the existing entry is not a list; a plain entry assigns, overwriting. -/
def storeValue (composite_val : Bool) (valname : Option String) (value : Val)
    (result : ResultMap) : Except Err ResultMap :=
  match valname with
  | none => Except.ok result
  | some n =>
    if composite_val then
      match result.lookup n with
      | none => Except.ok (dictInsert result n (Val.list [value]))
      | some (Val.list l) => Except.ok (dictInsert result n (Val.list (l ++ [value])))
      | some _ => Except.error Err.attributeError
    else Except.ok (dictInsert result n value)

/-- Loop body of parse_modbus_values_by_map: walk the schema entries in
order; strip the composite bit; decode one 16-bit value for type 2 or
type 6; raise ValueError (Unknown register type!) for any other base type
before consuming a word; then store the value under the entry name. The
remaining decoder words are returned alongside the result so that
consumption is visible to specifications. -/
def parseMapAux : List (Option String × Nat) → ResultMap → List Nat →
    Except Err (ResultMap × List Nat)
  | [], result, ws => Except.ok (result, ws)
  | (valname, valtype) :: rest, result, ws =>
    if stripC valtype = ISG_TYPE_2 then
      match ws with
      | [] => Except.error Err.structError
      | w :: ws2 =>
        match storeValue (isComposite valtype) valname
            (get_isg_scaled_value (toSigned w)) result with
        | Except.error e => Except.error e
        | Except.ok result2 => parseMapAux rest result2 ws2
    else if stripC valtype = ISG_TYPE_6 then
      match ws with
      | [] => Except.error Err.structError
      | w :: ws2 =>
        match storeValue (isComposite valtype) valname (Val.int (w : Int)) result with
        | Except.error e => Except.error e
        | Except.ok result2 => parseMapAux rest result2 ws2
    else Except.error Err.valueError

/-- parse_modbus_values_by_map: parse a schema (value map) against a
decoder positioned at the given words, starting from an empty dict. -/
def parse_modbus_values_by_map (values_map : List (Option String × Nat))
    (ws : List Nat) : Except Err (ResultMap × List Nat) :=
  parseMapAux values_map [] ws

/-- The register reader: maps (slave, address, count) to a register list on
success or none when the response isError(). -/
abbrev Env := Nat → Nat → Nat → Option (List Nat)

/-- read_input_registers of the coordinator, delegating to the client. -/
def read_input_registers (env : Env) (slave address count : Nat) : Option (List Nat) :=
  env slave address count

/-- read_modbus_system_state: one register at address 2500; bit flags and
the derived consumed power; an errored read leaves the dict empty. -/
def read_modbus_system_state (env : Env) : Except Err ResultMap :=
  match read_input_registers env 1 2500 1 with
  | none => Except.ok []
  | some regs =>
    match fromRegisters regs with
    | Except.error e => Except.error e
    | Except.ok words =>
      (do
        let state ← decode_16bit_uint
        let mut result : ResultMap := []
        let is_heating := (state &&& (1 <<< 4)) != 0
        result := dictInsert result IS_HEATING (Val.bool is_heating)
        let is_heating_water := (state &&& (1 <<< 5)) != 0
        result := dictInsert result IS_HEATING_WATER (Val.bool is_heating_water)
        result := dictInsert result CONSUMED_POWER
          (Val.rat (if is_heating_water || is_heating then HEATPUMPT_AVERAGE_POWER else 0.0))
        result := dictInsert result IS_SUMMER_MODE (Val.bool ((state &&& (1 <<< 7)) != 0))
        result := dictInsert result IS_COOLING (Val.bool ((state &&& (1 <<< 8)) != 0))
        pure result : DecM ResultMap).run' words

/-- The constant schema table system_values_map_LW defined inside
read_modbus_system_values_LW, in source order. Entries 28 and 29 carry
base type ISG_TYPE_7 and the two compressor_starts entries carry the
composite bit. -/
def system_values_map_LW : List (Option String × Nat) := [
  (some ACTUAL_TEMPERATURE_HK1, ISG_TYPE_2),
  (some TARGET_TEMPERATURE_HK1, ISG_TYPE_2),
  (some ACTUAL_HUMIDITY_HK1, ISG_TYPE_2),
  (some ACTUAL_TEMPERATURE_HK2, ISG_TYPE_2),
  (some ACTUAL_TEMPERATURE_HK2, ISG_TYPE_2),
  (some ACTUAL_HUMIDITY_HK2, ISG_TYPE_2),
  (some OUTDOOR_TEMPERATURE, ISG_TYPE_2),
  (some ACTUAL_CIRCUIT_TEMPERATURE_HK1, ISG_TYPE_2),
  (some TARGET_CIRCUIT_TEMPERATURE_HK1, ISG_TYPE_2),
  (some ACTUAL_CIRCUIT_TEMPERATURE_HK2, ISG_TYPE_2),
  (some TARGET_CIRCUIT_TEMPERATURE_HK2, ISG_TYPE_2),
  (some SUPPLY_TEMPERATURE, ISG_TYPE_2),
  (some RETURN_TEMPERATURE, ISG_TYPE_2),
  (some PRESSURE_CIRCUIT, ISG_TYPE_2),
  (none, ISG_TYPE_2),
  (some ACTUAL_TEMPERATURE_WATER, ISG_TYPE_2),
  (some TARGET_TEMPERATURE_WATER, ISG_TYPE_2),
  (none, ISG_TYPE_6),
  (none, ISG_TYPE_6),
  (none, ISG_TYPE_6),
  (none, ISG_TYPE_6),
  (none, ISG_TYPE_6),
  (none, ISG_TYPE_2),
  (none, ISG_TYPE_2),
  (none, ISG_TYPE_2),
  (none, ISG_TYPE_2),
  (none, ISG_TYPE_2),
  (none, ISG_TYPE_2),
  (none, ISG_TYPE_7),
  (none, ISG_TYPE_7),
  (some COMPRESSOR_STARTS, ISG_TYPE_6 ||| ISG_TYPE_C),
  (none, ISG_TYPE_2),
  (none, ISG_TYPE_6),
  (some COMPRESSOR_STARTS, ISG_TYPE_6 ||| ISG_TYPE_C)]

/-- read_modbus_system_values_LW: 34 registers at address 0, parsed through
system_values_map_LW, then the composite compressor_starts entry is
collapsed to high times 1000 plus low. When the read errors, the decoder
local is never assigned and the unconditional parser call raises
UnboundLocalError. The composite collapse subscripts result entry 0 and 1
of the list; Python would raise TypeError or KeyError on a malformed or
missing entry, and since the parts are decoded with ISG_TYPE_6 any parts
ever produced would be ints. -/
def read_modbus_system_values_LW (env : Env) : Except Err ResultMap :=
  match read_input_registers env 1 0 34 with
  | none => Except.error Err.unboundLocalError
  | some regs =>
    match fromRegisters regs with
    | Except.error e => Except.error e
    | Except.ok words =>
      match parse_modbus_values_by_map system_values_map_LW words with
      | Except.error e => Except.error e
      | Except.ok (result, _) =>
        match result.lookup COMPRESSOR_STARTS with
        | some (Val.list (Val.int a :: Val.int b :: _)) =>
          Except.ok (dictInsert result COMPRESSOR_STARTS (Val.int (a * 1000 + b)))
        | some _ => Except.error Err.typeError
        | none => Except.error Err.keyError

/-- read_modbus_system_values: 40 registers at address 500, a fixed walk of
signed scaled values with skip gaps of 10, 4 and 24 bytes. The first
decode of the hk1 target position is bound to a local that the source
never reads; the second decode is stored. An errored read leaves the dict
empty. -/
def read_modbus_system_values (env : Env) : Except Err ResultMap :=
  match read_input_registers env 1 500 40 with
  | none => Except.ok []
  | some regs =>
    match fromRegisters regs with
    | Except.error e => Except.error e
    | Except.ok words =>
      (do
        let mut result : ResultMap := []
        result := dictInsert result ACTUAL_TEMPERATURE
          (get_isg_scaled_value (← decode_16bit_int))
        result := dictInsert result TARGET_TEMPERATURE
          (get_isg_scaled_value (← decode_16bit_int))
        result := dictInsert result ACTUAL_TEMPERATURE_FEK
          (get_isg_scaled_value (← decode_16bit_int))
        result := dictInsert result TARGET_TEMPERATURE_FEK
          (get_isg_scaled_value (← decode_16bit_int))
        result := dictInsert result ACTUAL_HUMIDITY
          (get_isg_scaled_value (← decode_16bit_int))
        result := dictInsert result DEWPOINT_TEMPERATURE
          (get_isg_scaled_value (← decode_16bit_int))
        result := dictInsert result OUTDOOR_TEMPERATURE
          (get_isg_scaled_value (← decode_16bit_int))
        result := dictInsert result ACTUAL_TEMPERATURE_HK1
          (get_isg_scaled_value (← decode_16bit_int))
        let _hk1_target := get_isg_scaled_value (← decode_16bit_int)
        result := dictInsert result TARGET_TEMPERATURE_HK1
          (get_isg_scaled_value (← decode_16bit_int))
        result := dictInsert result ACTUAL_TEMPERATURE_HK2
          (get_isg_scaled_value (← decode_16bit_int))
        result := dictInsert result TARGET_TEMPERATURE_HK2
          (get_isg_scaled_value (← decode_16bit_int))
        skip_bytes 10
        result := dictInsert result ACTUAL_TEMPERATURE_BUFFER
          (get_isg_scaled_value (← decode_16bit_int))
        result := dictInsert result TARGET_TEMPERATURE_BUFFER
          (get_isg_scaled_value (← decode_16bit_int))
        skip_bytes 4
        result := dictInsert result ACTUAL_TEMPERATURE_WATER
          (get_isg_scaled_value (← decode_16bit_int))
        result := dictInsert result TARGET_TEMPERATURE_WATER
          (get_isg_scaled_value (← decode_16bit_int))
        skip_bytes 24
        result := dictInsert result SOURCE_TEMPERATURE
          (get_isg_scaled_value (← decode_16bit_int))
        pure result : DecM ResultMap).run' words

/-- read_modbus_energy: 22 registers at address 3500; twelve unsigned
values with an 8 byte skip after the first six; totals combine as high
times 1000 plus low. An errored read leaves the dict empty. -/
def read_modbus_energy (env : Env) : Except Err ResultMap :=
  match read_input_registers env 1 3500 22 with
  | none => Except.ok []
  | some regs =>
    match fromRegisters regs with
    | Except.error e => Except.error e
    | Except.ok words =>
      (do
        let produced_heating_today ← decode_16bit_uint
        let produced_heating_total_low ← decode_16bit_uint
        let produced_heating_total_high ← decode_16bit_uint
        let produced_water_today ← decode_16bit_uint
        let produced_water_total_low ← decode_16bit_uint
        let produced_water_total_high ← decode_16bit_uint
        skip_bytes 8
        let consumed_heating_today ← decode_16bit_uint
        let consumed_heating_total_low ← decode_16bit_uint
        let consumed_heating_total_high ← decode_16bit_uint
        let consumed_water_today ← decode_16bit_uint
        let consumed_water_total_low ← decode_16bit_uint
        let consumed_water_total_high ← decode_16bit_uint
        let mut result : ResultMap := []
        result := dictInsert result PRODUCED_HEATING_TODAY
          (Val.int (produced_heating_today : Int))
        result := dictInsert result PRODUCED_HEATING_TOTAL
          (Val.int ((produced_heating_total_high * 1000 + produced_heating_total_low : Nat) : Int))
        result := dictInsert result PRODUCED_WATER_HEATING_TODAY
          (Val.int (produced_water_today : Int))
        result := dictInsert result PRODUCED_WATER_HEATING_TOTAL
          (Val.int ((produced_water_total_high * 1000 + produced_water_total_low : Nat) : Int))
        result := dictInsert result CONSUMED_HEATING_TODAY
          (Val.int (consumed_heating_today : Int))
        result := dictInsert result CONSUMED_HEATING_TOTAL
          (Val.int ((consumed_heating_total_high * 1000 + consumed_heating_total_low : Nat) : Int))
        result := dictInsert result CONSUMED_WATER_HEATING_TODAY
          (Val.int (consumed_water_today : Int))
        result := dictInsert result CONSUMED_WATER_HEATING_TOTAL
          (Val.int ((consumed_water_total_high * 1000 + consumed_water_total_low : Nat) : Int))
        pure result : DecM ResultMap).run' words

/-- read_modbus_controller_id: one register at address 5001, decoded
unsigned; an errored read leaves the initial value 0 in place, so a
transport error on the identity read yields id 0 rather than a failure. -/
def read_modbus_controller_id (env : Env) : Except Err Nat :=
  match read_input_registers env 1 5001 1 with
  | none => Except.ok 0
  | some regs =>
    match fromRegisters regs with
    | Except.error e => Except.error e
    | Except.ok words => (decode_16bit_uint.run' words).map id

/-- read_modbus_data, the per-poll entry point. The id == 103 branch of the
source calls self.read_modbus_system_values_lw(); Python attribute lookup
is case sensitive and the class only defines read_modbus_system_values_LW,
so the call raises AttributeError, embedded here as that error. Any other
id merges the energy, system-state and system-values dicts and attaches
controller_id. -/
def read_modbus_data (env : Env) : Except Err ResultMap := do
  let id ← read_modbus_controller_id env
  if 103 = id then
    Except.error Err.attributeError
  else
    let e ← read_modbus_energy env
    let s ← read_modbus_system_state env
    let v ← read_modbus_system_values env
    pure (dictInsert (dictMerge (dictMerge (dictMerge [] e) s) v)
      "controller_id" (Val.int (id : Int)))

/-! Helper lemmas about the dictionary model and the schema parser. -/

/-- Looking a key up after a dict assignment: the assigned key yields the
new value, any other key is unaffected. -/
theorem lookup_dictInsert (m : ResultMap) (k q : String) (v : Val) :
    (dictInsert m k v).lookup q = if q = k then some v else m.lookup q := by
  induction m with
  | nil =>
    by_cases h : q = k
    · subst h; simp [dictInsert, List.lookup]
    · simp [dictInsert, List.lookup, h, beq_eq_false_iff_ne.mpr h]
  | cons p rest ih =>
    obtain ⟨k1, v1⟩ := p
    by_cases h1 : k1 = k
    · subst h1
      by_cases hq : q = k1
      · subst hq; simp [dictInsert, List.lookup]
      · simp [dictInsert, List.lookup, hq, beq_eq_false_iff_ne.mpr hq]
    · by_cases hq : q = k1
      · subst hq
        simp [dictInsert, List.lookup, h1]
      · simp [dictInsert, List.lookup, h1, hq, beq_eq_false_iff_ne.mpr hq, ih]

/-- One parser step on a handled entry (base type 2 or 6) with a word
available: decode the word, then store it under the entry name. -/
theorem parse_cons_handled (valname : Option String) (valtype : Nat)
    (rest : List (Option String × Nat)) (acc : ResultMap) (w : Nat) (ws : List Nat)
    (h : stripC valtype = ISG_TYPE_2 ∨ stripC valtype = ISG_TYPE_6) :
    parseMapAux ((valname, valtype) :: rest) acc (w :: ws) =
      match storeValue (isComposite valtype) valname (decodedWord valtype w) acc with
      | Except.error e => Except.error e
      | Except.ok acc2 => parseMapAux rest acc2 ws := by
  rcases h with h | h
  · simp [parseMapAux, h, decodedWord]
  · have h2 : ¬stripC valtype = ISG_TYPE_2 := by simp [h, ISG_TYPE_6, ISG_TYPE_2]
    simp [parseMapAux, h, h2, decodedWord, ISG_TYPE_2, ISG_TYPE_6]

/-- One parser step on a handled entry with the decoder exhausted raises
struct.error. -/
theorem parse_nil_words (valname : Option String) (valtype : Nat)
    (rest : List (Option String × Nat)) (acc : ResultMap)
    (h : stripC valtype = ISG_TYPE_2 ∨ stripC valtype = ISG_TYPE_6) :
    parseMapAux ((valname, valtype) :: rest) acc [] = Except.error Err.structError := by
  rcases h with h | h <;> simp [parseMapAux, h, ISG_TYPE_2, ISG_TYPE_6]

/-- One parser step on an entry whose base type is neither handled code
raises ValueError before consuming any word. -/
theorem parse_unknown_entry (valname : Option String) (valtype : Nat)
    (rest : List (Option String × Nat)) (acc : ResultMap) (ws : List Nat)
    (h2 : stripC valtype ≠ ISG_TYPE_2) (h6 : stripC valtype ≠ ISG_TYPE_6) :
    parseMapAux ((valname, valtype) :: rest) acc ws = Except.error Err.valueError := by
  simp [parseMapAux, h2, h6]

/-- Storing a non-composite value never fails: an absent name leaves the
dict unchanged, a present name assigns. -/
theorem storeValue_plain (valname : Option String) (value : Val) (result : ResultMap) :
    storeValue false valname value result =
      Except.ok (match valname with
        | none => result
        | some n => dictInsert result n value) := by
  cases valname <;> simp [storeValue]

/-- Whenever the parser returns successfully it has consumed exactly one
word per schema entry. -/
theorem parse_consumed : ∀ (vm : List (Option String × Nat)) (acc : ResultMap)
    (ws : List Nat) (r : ResultMap) (ws2 : List Nat),
    parseMapAux vm acc ws = Except.ok (r, ws2) →
    ws2 = ws.drop vm.length ∧ vm.length ≤ ws.length := by
  intro vm
  induction vm with
  | nil =>
    intro acc ws r ws2 h
    simp [parseMapAux] at h
    simp [h.2]
  | cons e rest ih =>
    obtain ⟨valname, valtype⟩ := e
    intro acc ws r ws2 h
    by_cases ht : stripC valtype = ISG_TYPE_2 ∨ stripC valtype = ISG_TYPE_6
    · cases ws with
      | nil =>
        rw [parse_nil_words _ _ _ _ ht] at h
        exact Except.noConfusion h
      | cons w ws1 =>
        rw [parse_cons_handled _ _ _ _ _ _ ht] at h
        cases hs : storeValue (isComposite valtype) valname (decodedWord valtype w) acc with
        | error e0 => rw [hs] at h; exact Except.noConfusion h
        | ok acc2 =>
          rw [hs] at h
          obtain ⟨ha, hb⟩ := ih acc2 ws1 r ws2 h
          subst ha
          refine ⟨by simp, ?_⟩
          simpa using Nat.succ_le_succ hb
    · push_neg at ht
      rw [parse_unknown_entry _ _ _ _ _ ht.1 ht.2] at h
      exact Except.noConfusion h

/-- A schema entry that is not composite and whose type code is one of the
two handled codes. -/
def plainHandled (e : Option String × Nat) : Bool :=
  !(isComposite e.2) && (stripC e.2 == ISG_TYPE_2 || stripC e.2 == ISG_TYPE_6)

/-- Unfolding of plainHandled into propositional form. -/
theorem plainHandled_spec (e : Option String × Nat) (h : plainHandled e = true) :
    isComposite e.2 = false ∧ (stripC e.2 = ISG_TYPE_2 ∨ stripC e.2 = ISG_TYPE_6) := by
  simpa [plainHandled] using h

/-- Running the parser over a block of plain handled entries, given enough
words, reaches the rest of the schema having consumed one word per entry. -/
theorem parse_block_plain : ∀ (good rest : List (Option String × Nat))
    (acc : ResultMap) (ws : List Nat),
    good.all plainHandled = true → good.length ≤ ws.length →
    ∃ acc2, parseMapAux (good ++ rest) acc ws =
      parseMapAux rest acc2 (ws.drop good.length) := by
  intro good
  induction good with
  | nil => exact fun rest acc ws _ _ => ⟨acc, by simp⟩
  | cons e good ih =>
    obtain ⟨valname, valtype⟩ := e
    intro rest acc ws hall hlen
    rw [List.all_cons, Bool.and_eq_true] at hall
    obtain ⟨hcomp, htype⟩ := plainHandled_spec _ hall.1
    cases ws with
    | nil => simp at hlen
    | cons w ws1 =>
      have hlen1 : good.length ≤ ws1.length := by simpa using hlen
      cases valname with
      | none =>
        obtain ⟨acc3, heq⟩ := ih rest acc ws1 hall.2 hlen1
        refine ⟨acc3, ?_⟩
        rw [List.cons_append, parse_cons_handled _ _ _ _ _ _ htype, hcomp, storeValue_plain]
        simpa using heq
      | some n =>
        obtain ⟨acc3, heq⟩ := ih rest (dictInsert acc n (decodedWord valtype w)) ws1 hall.2 hlen1
        refine ⟨acc3, ?_⟩
        rw [List.cons_append, parse_cons_handled _ _ _ _ _ _ htype, hcomp, storeValue_plain]
        simpa using heq

/-- Running the parser over a block of plain handled entries with too few
words raises struct.error. -/
theorem parse_block_short : ∀ (good rest : List (Option String × Nat))
    (acc : ResultMap) (ws : List Nat),
    good.all plainHandled = true → ws.length < good.length →
    parseMapAux (good ++ rest) acc ws = Except.error Err.structError := by
  intro good
  induction good with
  | nil => intro rest acc ws _ h; simp at h
  | cons e good ih =>
    obtain ⟨valname, valtype⟩ := e
    intro rest acc ws hall hlen
    rw [List.all_cons, Bool.and_eq_true] at hall
    obtain ⟨hcomp, htype⟩ := plainHandled_spec _ hall.1
    cases ws with
    | nil => rw [List.cons_append]; exact parse_nil_words _ _ _ _ htype
    | cons w ws1 =>
      rw [List.cons_append, parse_cons_handled _ _ _ _ _ _ htype, hcomp, storeValue_plain]
      have hlen1 : ws1.length < good.length := by simpa using hlen
      cases valname with
      | none => simpa using ih rest acc ws1 hall.2 hlen1
      | some n => simpa using ih rest (dictInsert acc n (decodedWord valtype w)) ws1 hall.2 hlen1

/-- The first 28 entries of the LW schema table. -/
def lwFirst : List (Option String × Nat) := system_values_map_LW.take 28

/-- The LW schema table past its first unknown-type entry. -/
def lwRest : List (Option String × Nat) := system_values_map_LW.drop 29

/-- The LW schema table splits around the first ISG_TYPE_7 entry at
position 28. -/
theorem lw_split : system_values_map_LW = lwFirst ++ ((none, ISG_TYPE_7) :: lwRest) := rfl

/-- The 28 entries before the first ISG_TYPE_7 entry are plain and handled. -/
theorem lwFirst_all : lwFirst.all plainHandled = true := rfl

/-- Length of the plain prefix of the LW schema table. -/
theorem lwFirst_len : lwFirst.length = 28 := rfl

/-- With at least 28 words available, parsing the LW schema table reaches
its first ISG_TYPE_7 entry and raises the unknown register type error. -/
theorem lw_parse_big (ws : List Nat) (hlen : 28 ≤ ws.length) :
    parse_modbus_values_by_map system_values_map_LW ws = Except.error Err.valueError := by
  unfold parse_modbus_values_by_map
  rw [lw_split]
  obtain ⟨acc2, heq⟩ := parse_block_plain lwFirst ((none, ISG_TYPE_7) :: lwRest) [] ws
    lwFirst_all (by rw [lwFirst_len]; exact hlen)
  rw [heq, parse_unknown_entry _ _ _ _ _ (by decide) (by decide)]

/-- Parsing the LW schema table never succeeds, whatever the decoder holds. -/
theorem lw_parse_never_ok (ws : List Nat) (r : ResultMap × List Nat) :
    parse_modbus_values_by_map system_values_map_LW ws ≠ Except.ok r := by
  intro h
  by_cases hlen : 28 ≤ ws.length
  · rw [lw_parse_big ws hlen] at h
    exact Except.noConfusion h
  · push_neg at hlen
    unfold parse_modbus_values_by_map at h
    rw [lw_split] at h
    rw [parse_block_short lwFirst _ [] ws lwFirst_all (by rw [lwFirst_len]; exact hlen)] at h
    exact Except.noConfusion h

/-- Bit test through masking: a word masked with a shifted one bit is
nonzero exactly when that bit of the word is set. -/
theorem and_shift_testBit (s i : Nat) : ((s &&& (1 <<< i)) != 0) = s.testBit i := by
  rw [Nat.shiftLeft_eq, one_mul, Nat.and_two_pow]
  cases h : s.testBit i
  · simp
  · simp [(Nat.two_pow_pos i).ne']

/-! Claim theorems. -/

/-- C4: the schema-driven parser consumes exactly one 16-bit word per entry
regardless of whether the entry name is absent (first conjunct: on success
exactly len words were consumed; step conjuncts: each handled entry
consumes one word); an absent name discards the decoded value; a composite
entry appends the decoded value to the list under its name, creating the
list on first occurrence; a plain name is assigned with overwrite
semantics, so the last write wins. -/
theorem parser_step_semantics :
    (∀ (vm : List (Option String × Nat)) (acc : ResultMap) (ws : List Nat)
        (r : ResultMap) (ws2 : List Nat),
        parseMapAux vm acc ws = Except.ok (r, ws2) →
        ws2 = ws.drop vm.length ∧ vm.length ≤ ws.length) ∧
    (∀ (acc : ResultMap) (valtype : Nat) (rest : List (Option String × Nat))
        (w : Nat) (ws : List Nat),
        stripC valtype = ISG_TYPE_2 ∨ stripC valtype = ISG_TYPE_6 → w < 65536 →
        parseMapAux ((none, valtype) :: rest) acc (w :: ws) = parseMapAux rest acc ws) ∧
    (∀ (acc : ResultMap) (n : String) (valtype : Nat) (rest : List (Option String × Nat))
        (w : Nat) (ws : List Nat),
        stripC valtype = ISG_TYPE_2 ∨ stripC valtype = ISG_TYPE_6 →
        isComposite valtype = true → w < 65536 →
        acc.lookup n = none →
        parseMapAux ((some n, valtype) :: rest) acc (w :: ws) =
          parseMapAux rest (dictInsert acc n (Val.list [decodedWord valtype w])) ws) ∧
    (∀ (acc : ResultMap) (n : String) (valtype : Nat) (rest : List (Option String × Nat))
        (w : Nat) (ws : List Nat) (l : List Val),
        stripC valtype = ISG_TYPE_2 ∨ stripC valtype = ISG_TYPE_6 →
        isComposite valtype = true → w < 65536 →
        acc.lookup n = some (Val.list l) →
        parseMapAux ((some n, valtype) :: rest) acc (w :: ws) =
          parseMapAux rest (dictInsert acc n (Val.list (l ++ [decodedWord valtype w]))) ws) ∧
    (∀ (acc : ResultMap) (n : String) (valtype : Nat) (rest : List (Option String × Nat))
        (w : Nat) (ws : List Nat),
        stripC valtype = ISG_TYPE_2 ∨ stripC valtype = ISG_TYPE_6 →
        isComposite valtype = false → w < 65536 →
        parseMapAux ((some n, valtype) :: rest) acc (w :: ws) =
          parseMapAux rest (dictInsert acc n (decodedWord valtype w)) ws) ∧
    (∀ (m : ResultMap) (n : String) (v : Val), (dictInsert m n v).lookup n = some v) := by
  refine ⟨parse_consumed, ?_, ?_, ?_, ?_, ?_⟩
  · intro acc valtype rest w ws ht _
    rw [parse_cons_handled _ _ _ _ _ _ ht]
    simp [storeValue]
  · intro acc n valtype rest w ws ht hc _ hlook
    rw [parse_cons_handled _ _ _ _ _ _ ht, hc]
    simp [storeValue, hlook]
  · intro acc n valtype rest w ws l ht hc _ hlook
    rw [parse_cons_handled _ _ _ _ _ _ ht, hc]
    simp [storeValue, hlook]
  · intro acc n valtype rest w ws ht hc _
    rw [parse_cons_handled _ _ _ _ _ _ ht, hc, storeValue_plain]
  · intro m n v
    rw [lookup_dictInsert]
    simp

/-- Witness for C4 at concrete inputs: each conjunct applied with small
schemas and words, hypotheses discharged by computation. -/
theorem parser_step_semantics_witness :
    (([] : List Nat) = ([5] : List Nat).drop ([(some "x", ISG_TYPE_6)]).length ∧
      ([(some "x", ISG_TYPE_6)]).length ≤ ([5] : List Nat).length) ∧
    parseMapAux [(none, ISG_TYPE_6)] [] [5] = parseMapAux [] [] [] ∧
    parseMapAux [(some "x", ISG_TYPE_6 ||| ISG_TYPE_C)] [] [5] =
      parseMapAux [] (dictInsert [] "x"
        (Val.list [decodedWord (ISG_TYPE_6 ||| ISG_TYPE_C) 5])) [] ∧
    parseMapAux [(some "x", ISG_TYPE_6 ||| ISG_TYPE_C)] [("x", Val.list [Val.int 1])] [5] =
      parseMapAux [] (dictInsert [("x", Val.list [Val.int 1])] "x"
        (Val.list ([Val.int 1] ++ [decodedWord (ISG_TYPE_6 ||| ISG_TYPE_C) 5]))) [] ∧
    parseMapAux [(some "x", ISG_TYPE_2)] [] [5] =
      parseMapAux [] (dictInsert [] "x" (decodedWord ISG_TYPE_2 5)) [] ∧
    (dictInsert [] "x" (Val.int 1)).lookup "x" = some (Val.int 1) :=
  ⟨parser_step_semantics.1 [(some "x", ISG_TYPE_6)] [] [5] [("x", Val.int 5)] [] rfl,
   parser_step_semantics.2.1 [] ISG_TYPE_6 [] 5 [] (Or.inr rfl) (by decide),
   parser_step_semantics.2.2.1 [] "x" (ISG_TYPE_6 ||| ISG_TYPE_C) [] 5 []
     (Or.inr rfl) rfl (by decide) rfl,
   parser_step_semantics.2.2.2.1 [("x", Val.list [Val.int 1])] "x"
     (ISG_TYPE_6 ||| ISG_TYPE_C) [] 5 [] [Val.int 1] (Or.inr rfl) rfl (by decide) rfl,
   parser_step_semantics.2.2.2.2.1 [] "x" ISG_TYPE_2 [] 5 [] (Or.inl rfl) rfl (by decide),
   parser_step_semantics.2.2.2.2.2 [] "x" (Val.int 1)⟩

/-- C5: a schema entry whose type code, after stripping the composite bit,
is neither the signed-scaled code 2 nor the unsigned code 6 makes the
parser fail with the unknown register type ValueError, producing no value. -/
theorem parser_unknown_type (valname : Option String) (valtype : Nat)
    (rest : List (Option String × Nat)) (acc : ResultMap) (ws : List Nat)
    (h2 : stripC valtype ≠ ISG_TYPE_2) (h6 : stripC valtype ≠ ISG_TYPE_6) :
    parseMapAux ((valname, valtype) :: rest) acc ws = Except.error Err.valueError :=
  parse_unknown_entry valname valtype rest acc ws h2 h6

/-- Witness for C5 at the concrete unhandled type code ISG_TYPE_7. -/
theorem parser_unknown_type_witness :
    parseMapAux [(some "x", ISG_TYPE_7)] [] [5] = Except.error Err.valueError :=
  parser_unknown_type (some "x") ISG_TYPE_7 [] [] [5] (by decide) (by decide)

/-- C6: for a raw 16-bit signed value v, the signed scaled decode returns
v times 0.1 (that is v / 10) whenever v is not -32768, and returns the
None marker, never a number, at the sentinel -32768. -/
theorem scaled_value_correct :
    (∀ v : Int, -32768 ≤ v → v < 32768 → v ≠ -32768 →
        get_isg_scaled_value v = Val.rat ((v : ℚ) / 10)) ∧
    get_isg_scaled_value (-32768) = Val.none_ := by
  constructor
  · intro v _ _ hne
    rw [get_isg_scaled_value, if_pos hne]
    congr 1
    rw [show (0.1 : ℚ) = 1 / 10 by norm_num]
    ring
  · norm_num [get_isg_scaled_value]

/-- Witness for C6: raw 235 scales to 23.5 and raw -50 scales to -5. -/
theorem scaled_value_correct_witness :
    get_isg_scaled_value 235 = Val.rat ((235 : ℚ) / 10) ∧
    get_isg_scaled_value (-50) = Val.rat (((-50 : Int) : ℚ) / 10) :=
  ⟨scaled_value_correct.1 235 (by decide) (by decide) (by decide),
   scaled_value_correct.1 (-50) (by decide) (by decide) (by decide)⟩

/-- C7: a successful energy read of 22 registers decodes twelve unsigned
words, in order produced-heating-today, produced-heating-total low and
high, produced-water-today, produced-water-total low and high, then skips
8 bytes (four words w6 to w9), then the consumed counterparts (w10 to
w15); every total is high times 1000 plus low. -/
theorem energy_block_decode (env : Env) (w0 w1 w2 w3 w4 w5 w6 w7 w8 w9 w10 w11
    w12 w13 w14 w15 w16 w17 w18 w19 w20 w21 : Nat)
    (henv : read_input_registers env 1 3500 22 = some [w0, w1, w2, w3, w4, w5, w6,
      w7, w8, w9, w10, w11, w12, w13, w14, w15, w16, w17, w18, w19, w20, w21])
    (hw : ([w0, w1, w2, w3, w4, w5, w6, w7, w8, w9, w10, w11, w12, w13, w14, w15,
      w16, w17, w18, w19, w20, w21] : List Nat).all (fun r => decide (r < 65536)) = true) :
    read_modbus_energy env = Except.ok [
      (PRODUCED_HEATING_TODAY, Val.int (w0 : Int)),
      (PRODUCED_HEATING_TOTAL, Val.int ((w2 * 1000 + w1 : Nat) : Int)),
      (PRODUCED_WATER_HEATING_TODAY, Val.int (w3 : Int)),
      (PRODUCED_WATER_HEATING_TOTAL, Val.int ((w5 * 1000 + w4 : Nat) : Int)),
      (CONSUMED_HEATING_TODAY, Val.int (w10 : Int)),
      (CONSUMED_HEATING_TOTAL, Val.int ((w12 * 1000 + w11 : Nat) : Int)),
      (CONSUMED_WATER_HEATING_TODAY, Val.int (w13 : Int)),
      (CONSUMED_WATER_HEATING_TOTAL, Val.int ((w15 * 1000 + w14 : Nat) : Int))] := by
  rw [read_modbus_energy, henv]
  simp only [fromRegisters, hw, if_true]
  rfl

/-- Witness for C7 at the concrete register block 1..22: the skipped words
7..10 are absent from the result and totals combine as high times 1000
plus low. -/
theorem energy_block_decode_witness :
    read_modbus_energy (fun _slave address _count =>
        if address = 3500 then some [1, 2, 3, 4, 5, 6, 7, 8, 9, 10, 11, 12, 13,
          14, 15, 16, 17, 18, 19, 20, 21, 22] else none) =
      Except.ok [
        (PRODUCED_HEATING_TODAY, Val.int 1),
        (PRODUCED_HEATING_TOTAL, Val.int 3002),
        (PRODUCED_WATER_HEATING_TODAY, Val.int 4),
        (PRODUCED_WATER_HEATING_TOTAL, Val.int 6005),
        (CONSUMED_HEATING_TODAY, Val.int 11),
        (CONSUMED_HEATING_TOTAL, Val.int 13012),
        (CONSUMED_WATER_HEATING_TODAY, Val.int 14),
        (CONSUMED_WATER_HEATING_TOTAL, Val.int 16015)] :=
  energy_block_decode _ 1 2 3 4 5 6 7 8 9 10 11 12 13 14 15 16 17 18 19 20 21 22
    rfl (by decide)

/-- C8: a successful system-state read of one register with value s sets
is_heating from bit 4, is_heating_water from bit 5, is_summer_mode from
bit 7, is_cooling from bit 8, and consumed_power is the fixed constant
wattage when heating or water heating is active and 0.0 otherwise; an
errored read yields an empty result for the block, not a failure. -/
theorem system_state_decode :
    (∀ (env : Env) (s : Nat), read_input_registers env 1 2500 1 = some [s] →
      s < 65536 →
      read_modbus_system_state env = Except.ok [
        (IS_HEATING, Val.bool (s.testBit 4)),
        (IS_HEATING_WATER, Val.bool (s.testBit 5)),
        (CONSUMED_POWER, Val.rat
          (if s.testBit 5 || s.testBit 4 then HEATPUMPT_AVERAGE_POWER else 0.0)),
        (IS_SUMMER_MODE, Val.bool (s.testBit 7)),
        (IS_COOLING, Val.bool (s.testBit 8))]) ∧
    (∀ env : Env, read_input_registers env 1 2500 1 = none →
      read_modbus_system_state env = Except.ok []) := by
  constructor
  · intro env s henv hs
    rw [read_modbus_system_state, henv]
    have hall : (List.all [s] fun r => decide (r < 65536)) = true := by simp [hs]
    simp only [fromRegisters, hall, if_true]
    conv_rhs => rw [← and_shift_testBit s 4, ← and_shift_testBit s 5,
      ← and_shift_testBit s 7, ← and_shift_testBit s 8]
    rfl
  · intro env henv
    rw [read_modbus_system_state, henv]

/-- Witness for C8 at register value 0b100110000 (bits 4, 5, 8 set):
heating, water heating and cooling are on, summer mode off, consumed power
is the constant wattage; and the errored read gives the empty dict. -/
theorem system_state_decode_witness :
    read_modbus_system_state (fun _slave address _count =>
        if address = 2500 then some [304] else none) =
      Except.ok [
        (IS_HEATING, Val.bool true),
        (IS_HEATING_WATER, Val.bool true),
        (CONSUMED_POWER, Val.rat HEATPUMPT_AVERAGE_POWER),
        (IS_SUMMER_MODE, Val.bool false),
        (IS_COOLING, Val.bool true)] ∧
    read_modbus_system_state (fun _slave _address _count => none) = Except.ok [] :=
  ⟨system_state_decode.1 _ 304 rfl (by decide), system_state_decode.2 _ rfl⟩

/-- C9: a successful main system-values read of 40 registers walks the
fixed sequence with skips of 10 bytes after the HK2 target (words 12 to
16), 4 bytes before the water actual (words 19 and 20) and 24 bytes
before the source temperature (words 23 to 34); the HK1 target register
position is decoded twice, word 8 being discarded and word 9 retained,
keeping the later fields aligned. -/
theorem system_values_decode (env : Env) (w0 w1 w2 w3 w4 w5 w6 w7 w8 w9 w10 w11
    w12 w13 w14 w15 w16 w17 w18 w19 w20 w21 w22 w23 w24 w25 w26 w27 w28 w29 w30
    w31 w32 w33 w34 w35 w36 w37 w38 w39 : Nat)
    (henv : read_input_registers env 1 500 40 = some [w0, w1, w2, w3, w4, w5, w6,
      w7, w8, w9, w10, w11, w12, w13, w14, w15, w16, w17, w18, w19, w20, w21, w22,
      w23, w24, w25, w26, w27, w28, w29, w30, w31, w32, w33, w34, w35, w36, w37,
      w38, w39])
    (hw : ([w0, w1, w2, w3, w4, w5, w6, w7, w8, w9, w10, w11, w12, w13, w14, w15,
      w16, w17, w18, w19, w20, w21, w22, w23, w24, w25, w26, w27, w28, w29, w30,
      w31, w32, w33, w34, w35, w36, w37, w38, w39] : List Nat).all
      (fun r => decide (r < 65536)) = true) :
    read_modbus_system_values env = Except.ok [
      (ACTUAL_TEMPERATURE, get_isg_scaled_value (toSigned w0)),
      (TARGET_TEMPERATURE, get_isg_scaled_value (toSigned w1)),
      (ACTUAL_TEMPERATURE_FEK, get_isg_scaled_value (toSigned w2)),
      (TARGET_TEMPERATURE_FEK, get_isg_scaled_value (toSigned w3)),
      (ACTUAL_HUMIDITY, get_isg_scaled_value (toSigned w4)),
      (DEWPOINT_TEMPERATURE, get_isg_scaled_value (toSigned w5)),
      (OUTDOOR_TEMPERATURE, get_isg_scaled_value (toSigned w6)),
      (ACTUAL_TEMPERATURE_HK1, get_isg_scaled_value (toSigned w7)),
      (TARGET_TEMPERATURE_HK1, get_isg_scaled_value (toSigned w9)),
      (ACTUAL_TEMPERATURE_HK2, get_isg_scaled_value (toSigned w10)),
      (TARGET_TEMPERATURE_HK2, get_isg_scaled_value (toSigned w11)),
      (ACTUAL_TEMPERATURE_BUFFER, get_isg_scaled_value (toSigned w17)),
      (TARGET_TEMPERATURE_BUFFER, get_isg_scaled_value (toSigned w18)),
      (ACTUAL_TEMPERATURE_WATER, get_isg_scaled_value (toSigned w21)),
      (TARGET_TEMPERATURE_WATER, get_isg_scaled_value (toSigned w22)),
      (SOURCE_TEMPERATURE, get_isg_scaled_value (toSigned w35))] := by
  rw [read_modbus_system_values, henv]
  simp only [fromRegisters, hw, if_true]
  rfl

/-- Witness for C9 at the concrete register block 100..139: word 108 at the
double-decoded HK1 target position is discarded in favor of word 109, and
the skip gaps land the buffer, water and source fields on words 117, 118,
121, 122 and 135. -/
theorem system_values_decode_witness :
    read_modbus_system_values (fun _slave address _count =>
        if address = 500 then some [100, 101, 102, 103, 104, 105, 106, 107, 108,
          109, 110, 111, 112, 113, 114, 115, 116, 117, 118, 119, 120, 121, 122,
          123, 124, 125, 126, 127, 128, 129, 130, 131, 132, 133, 134, 135, 136,
          137, 138, 139] else none) =
      Except.ok [
        (ACTUAL_TEMPERATURE, get_isg_scaled_value (toSigned 100)),
        (TARGET_TEMPERATURE, get_isg_scaled_value (toSigned 101)),
        (ACTUAL_TEMPERATURE_FEK, get_isg_scaled_value (toSigned 102)),
        (TARGET_TEMPERATURE_FEK, get_isg_scaled_value (toSigned 103)),
        (ACTUAL_HUMIDITY, get_isg_scaled_value (toSigned 104)),
        (DEWPOINT_TEMPERATURE, get_isg_scaled_value (toSigned 105)),
        (OUTDOOR_TEMPERATURE, get_isg_scaled_value (toSigned 106)),
        (ACTUAL_TEMPERATURE_HK1, get_isg_scaled_value (toSigned 107)),
        (TARGET_TEMPERATURE_HK1, get_isg_scaled_value (toSigned 109)),
        (ACTUAL_TEMPERATURE_HK2, get_isg_scaled_value (toSigned 110)),
        (TARGET_TEMPERATURE_HK2, get_isg_scaled_value (toSigned 111)),
        (ACTUAL_TEMPERATURE_BUFFER, get_isg_scaled_value (toSigned 117)),
        (TARGET_TEMPERATURE_BUFFER, get_isg_scaled_value (toSigned 118)),
        (ACTUAL_TEMPERATURE_WATER, get_isg_scaled_value (toSigned 121)),
        (TARGET_TEMPERATURE_WATER, get_isg_scaled_value (toSigned 122)),
        (SOURCE_TEMPERATURE, get_isg_scaled_value (toSigned 135))] :=
  system_values_decode _ 100 101 102 103 104 105 106 107 108 109 110 111 112 113
    114 115 116 117 118 119 120 121 122 123 124 125 126 127 128 129 130 131 132
    133 134 135 136 137 138 139 rfl (by decide)

/-- C1: evaluating the poll at an environment whose identity read yields
103 and whose alternate-family block read succeeds: the poll raises
AttributeError, because the id == 103 branch calls the method name
read_modbus_system_values_lw, which differs in case from the defined
read_modbus_system_values_LW; no result mapping with controller_id 103 is
ever produced. -/
theorem poll_id103_attribute_error :
    read_modbus_data (fun _slave address _count =>
      if address = 5001 then some [103] else some (List.replicate 34 0)) =
    Except.error Err.attributeError := rfl

/-- A poll environment whose identity read errors while the three default
family block reads succeed with all-zero registers. -/
def envIdentityError : Env := fun _slave address _count =>
  if address = 5001 then none
  else if address = 2500 then some [0]
  else if address = 3500 then some (List.replicate 22 0)
  else if address = 500 then some (List.replicate 40 0)
  else none

/-- C2 counterexample: with the identity read returning a transport error
and the other blocks succeeding, the poll does not fail; it returns a full
default-family mapping whose controller_id is 0. -/
theorem identity_error_poll_succeeds_cx :
    read_modbus_data envIdentityError = Except.ok [
      (PRODUCED_HEATING_TODAY, Val.int 0),
      (PRODUCED_HEATING_TOTAL, Val.int 0),
      (PRODUCED_WATER_HEATING_TODAY, Val.int 0),
      (PRODUCED_WATER_HEATING_TOTAL, Val.int 0),
      (CONSUMED_HEATING_TODAY, Val.int 0),
      (CONSUMED_HEATING_TOTAL, Val.int 0),
      (CONSUMED_WATER_HEATING_TODAY, Val.int 0),
      (CONSUMED_WATER_HEATING_TOTAL, Val.int 0),
      (IS_HEATING, Val.bool false),
      (IS_HEATING_WATER, Val.bool false),
      (CONSUMED_POWER, Val.rat 0.0),
      (IS_SUMMER_MODE, Val.bool false),
      (IS_COOLING, Val.bool false),
      (ACTUAL_TEMPERATURE, Val.rat (0 * 0.1)),
      (TARGET_TEMPERATURE, Val.rat (0 * 0.1)),
      (ACTUAL_TEMPERATURE_FEK, Val.rat (0 * 0.1)),
      (TARGET_TEMPERATURE_FEK, Val.rat (0 * 0.1)),
      (ACTUAL_HUMIDITY, Val.rat (0 * 0.1)),
      (DEWPOINT_TEMPERATURE, Val.rat (0 * 0.1)),
      (OUTDOOR_TEMPERATURE, Val.rat (0 * 0.1)),
      (ACTUAL_TEMPERATURE_HK1, Val.rat (0 * 0.1)),
      (TARGET_TEMPERATURE_HK1, Val.rat (0 * 0.1)),
      (ACTUAL_TEMPERATURE_HK2, Val.rat (0 * 0.1)),
      (TARGET_TEMPERATURE_HK2, Val.rat (0 * 0.1)),
      (ACTUAL_TEMPERATURE_BUFFER, Val.rat (0 * 0.1)),
      (TARGET_TEMPERATURE_BUFFER, Val.rat (0 * 0.1)),
      (ACTUAL_TEMPERATURE_WATER, Val.rat (0 * 0.1)),
      (TARGET_TEMPERATURE_WATER, Val.rat (0 * 0.1)),
      (SOURCE_TEMPERATURE, Val.rat (0 * 0.1)),
      ("controller_id", Val.int 0)] := rfl

/-- C2 amended: a transport error on the identity read does not abort the
poll; read_modbus_controller_id falls back to 0, so the poll runs the
default family and, when it completes, attaches controller_id 0. -/
theorem identity_error_defaults_to_zero (env : Env)
    (h : read_input_registers env 1 5001 1 = none) :
    read_modbus_data env =
      (read_modbus_energy env >>= fun e =>
        read_modbus_system_state env >>= fun s =>
        read_modbus_system_values env >>= fun v =>
        pure (dictInsert (dictMerge (dictMerge (dictMerge [] e) s) v)
          "controller_id" (Val.int 0))) := by
  have hid : read_modbus_controller_id env = Except.ok 0 := by
    rw [read_modbus_controller_id, h]
  rw [read_modbus_data, hid]
  rfl

/-- Witness for C2 amended at the concrete erroring environment. -/
theorem identity_error_defaults_to_zero_witness :
    read_modbus_data envIdentityError =
      (read_modbus_energy envIdentityError >>= fun e =>
        read_modbus_system_state envIdentityError >>= fun s =>
        read_modbus_system_values envIdentityError >>= fun v =>
        pure (dictInsert (dictMerge (dictMerge (dictMerge [] e) s) v)
          "controller_id" (Val.int 0))) :=
  identity_error_defaults_to_zero envIdentityError rfl

/-- A default-family poll environment (identity 7) whose energy block read
errors while the system-state and system-values reads succeed with zeros. -/
def envEnergyError : Env := fun _slave address _count =>
  if address = 5001 then some [7]
  else if address = 3500 then none
  else if address = 2500 then some [0]
  else if address = 500 then some (List.replicate 40 0)
  else none

/-- C3: an errored energy read contributes no keys and the default-family
poll still completes with the system-state and system-values keys plus
controller_id (first two conjuncts); but for the alternate-family block
the same situation is not handled: an errored read of
read_modbus_system_values_LW raises UnboundLocalError, because the decoder
local is only assigned inside the isError guard while the parser call sits
outside it, so that poll fails instead of completing (third conjunct). -/
theorem block_error_handling :
    read_modbus_energy envEnergyError = Except.ok [] ∧
    read_modbus_data envEnergyError = Except.ok [
      (IS_HEATING, Val.bool false),
      (IS_HEATING_WATER, Val.bool false),
      (CONSUMED_POWER, Val.rat 0.0),
      (IS_SUMMER_MODE, Val.bool false),
      (IS_COOLING, Val.bool false),
      (ACTUAL_TEMPERATURE, Val.rat (0 * 0.1)),
      (TARGET_TEMPERATURE, Val.rat (0 * 0.1)),
      (ACTUAL_TEMPERATURE_FEK, Val.rat (0 * 0.1)),
      (TARGET_TEMPERATURE_FEK, Val.rat (0 * 0.1)),
      (ACTUAL_HUMIDITY, Val.rat (0 * 0.1)),
      (DEWPOINT_TEMPERATURE, Val.rat (0 * 0.1)),
      (OUTDOOR_TEMPERATURE, Val.rat (0 * 0.1)),
      (ACTUAL_TEMPERATURE_HK1, Val.rat (0 * 0.1)),
      (TARGET_TEMPERATURE_HK1, Val.rat (0 * 0.1)),
      (ACTUAL_TEMPERATURE_HK2, Val.rat (0 * 0.1)),
      (TARGET_TEMPERATURE_HK2, Val.rat (0 * 0.1)),
      (ACTUAL_TEMPERATURE_BUFFER, Val.rat (0 * 0.1)),
      (TARGET_TEMPERATURE_BUFFER, Val.rat (0 * 0.1)),
      (ACTUAL_TEMPERATURE_WATER, Val.rat (0 * 0.1)),
      (TARGET_TEMPERATURE_WATER, Val.rat (0 * 0.1)),
      (SOURCE_TEMPERATURE, Val.rat (0 * 0.1)),
      ("controller_id", Val.int 7)] ∧
    read_modbus_system_values_LW (fun _slave _address _count => none) =
      Except.error Err.unboundLocalError :=
  ⟨rfl, rfl, rfl⟩

/-- C10: parsing the alternate-family schema table with the schema-driven
parser always fails. For every 34-word block, as delivered by its read of
34 registers at address 0, the walk reaches the first ISG_TYPE_7 entry at
position 28 and raises the unknown register type ValueError; and no
decoder input whatsoever can make the alternate-family read return a
mapping. -/
theorem lw_map_parse_always_fails :
    (∀ ws : List Nat, ws.length = 34 →
      parse_modbus_values_by_map system_values_map_LW ws = Except.error Err.valueError) ∧
    (∀ (env : Env) (r : ResultMap), read_modbus_system_values_LW env ≠ Except.ok r) := by
  constructor
  · intro ws hlen
    exact lw_parse_big ws (by omega)
  · intro env r h
    unfold read_modbus_system_values_LW at h
    split at h
    · exact Except.noConfusion h
    · split at h
      · exact Except.noConfusion h
      · split at h
        · exact Except.noConfusion h
        · rename_i x1 words hfr x2 result snd heq
          exact lw_parse_never_ok words (result, snd) heq

/-- Witness for C10: the all-zero 34-word block raises the unknown type
error, and the alternate read at an erroring environment is not a success. -/
theorem lw_map_parse_always_fails_witness :
    parse_modbus_values_by_map system_values_map_LW (List.replicate 34 0) =
      Except.error Err.valueError ∧
    read_modbus_system_values_LW (fun _slave _address _count => none) ≠
      Except.ok [] :=
  ⟨lw_map_parse_always_fails.1 (List.replicate 34 0) rfl,
   lw_map_parse_always_fails.2 (fun _slave _address _count => none) []⟩
